import Mathlib

/-!
# Verification of the codiro authentication subsystem

Shallow embedding of the GitHub-OAuth authentication subsystem of the
codiro repository: the token codec (`worker/auth/jwt.ts`), the user/identity
upsert (`worker/auth/github.ts`), the request-authentication gate
(`worker/auth/middleware.ts`) and the refresh/logout/callback route handlers
(`worker/db.ts`), together with theorems settling the spec's claims.

Timestamps: the source stores ISO-8601 UTC strings and compares them either
via `new Date(...)` or lexicographically (both orders agree with the numeric
time line for such strings), so the model uses `Nat` milliseconds since the
epoch.  JWT claims use whole seconds (`Math.floor(Date.now() / 1000)`),
modelled as `nowMs / 1000` with `Nat` division.

Effects: database rows are lists of records threaded through each handler;
random ids (`crypto.randomUUID()`) and the outcome of the outbound GitHub
calls are oracle parameters; JWT signing is symbolic (a signed token is the
payload paired with the signing secret, and verification compares secrets —
a token made with another secret or not made by `sign` at all models a
tampered/forged token).
-/

namespace Codiro

/-! ## Data model (db/schema, worker/types/auth.ts) -/

/-- Row of the `users` table (`db/schema/users.ts`). -/
structure UserRow where
  id : String
  username : String
  email : Option String
  avatarUrl : Option String
  createdAt : Nat
  updatedAt : Nat
  deriving DecidableEq, Repr

/-- Row of the `github_identities` table (`db/schema/github-identities.ts`). -/
structure GithubIdentityRow where
  userId : String
  githubId : Nat
  githubUsername : String
  githubEmail : Option String
  createdAt : Nat
  deriving DecidableEq, Repr

/-- Row of the `sessions` table (`db/schema/sessions.ts`); `expiresAt` is the
ISO-8601 string modelled as epoch milliseconds. -/
structure SessionRow where
  id : String
  userId : String
  expiresAt : Nat
  createdAt : Nat
  deriving DecidableEq, Repr

/-- The D1 database state: the three relations of the schema. -/
structure DB where
  users : List UserRow
  identities : List GithubIdentityRow
  sessions : List SessionRow
  deriving DecidableEq, Repr

/-- Profile returned by the GitHub API (`GitHubUser` in `worker/types/auth.ts`). -/
structure GitHubUser where
  id : Nat
  login : String
  email : Option String
  avatar_url : String
  name : Option String
  deriving DecidableEq, Repr

/-! ## Token payloads (worker/types/auth.ts) -/

/-- Payload `AccessTokenPayload`: sub = user id, username, iat/exp in seconds. -/
structure AccessTokenPayload where
  sub : String
  username : String
  exp : Nat
  iat : Nat
  deriving DecidableEq, Repr

/-- Payload `RefreshTokenPayload`: sub = user id, sessionId, iat/exp in seconds. -/
structure RefreshTokenPayload where
  sub : String
  sessionId : String
  exp : Nat
  iat : Nat
  deriving DecidableEq, Repr

/-- Payload `OAuthStatePayload`: an issue-time timestamp in milliseconds and a random
nonce.  Note the source interface has no `exp` and no `iat` field. -/
structure OAuthStatePayload where
  timestamp : Nat
  random : String
  deriving DecidableEq, Repr

/-- The payload of a JWT signed by this application, by kind. -/
inductive JwtPayload where
  | access (p : AccessTokenPayload)
  | refresh (p : RefreshTokenPayload)
  | state (p : OAuthStatePayload)
  deriving DecidableEq, Repr

/-- A compact token string as presented by a client: either a token produced
by `sign(payload, secret)` (signature intact), or anything else (malformed,
truncated, tampered, forged) which no verification with our secret accepts. -/
inductive Token where
  | signed (payload : JwtPayload) (secret : String)
  | malformed (raw : String)
  deriving DecidableEq, Repr

/-- The `exp` claim embedded in a signed payload, when the payload's type
declares one (`worker/types/auth.ts`): access and refresh payloads carry
`exp`, the OAuth-state payload does not. -/
def JwtPayload.expClaim : JwtPayload → Option Nat
  | .access p => some p.exp
  | .refresh p => some p.exp
  | .state _ => none

/-- The `iat` claim embedded in a signed payload, when present. -/
def JwtPayload.iatClaim : JwtPayload → Option Nat
  | .access p => some p.iat
  | .refresh p => some p.iat
  | .state _ => none

/-- The payload a token was signed with, for a token made by `sign`. -/
def Token.signedPayload : Token → Option JwtPayload
  | .signed payload _ => some payload
  | .malformed _ => none

/-- The access payload of a signed access token. -/
def Token.accessPayload : Token → Option AccessTokenPayload
  | .signed (.access p) _ => some p
  | _ => none

/-! ## Token codec (worker/auth/jwt.ts) -/

def ACCESS_TOKEN_EXPIRES_IN : Nat := 15 * 60
def REFRESH_TOKEN_EXPIRES_IN : Nat := 30 * 24 * 60 * 60
def STATE_TOKEN_EXPIRES_IN : Nat := 10 * 60

/-- Model of `hono/jwt` `verify(token, secret)`: checks the signature and, when the
payload carries an `exp` claim, that it has not passed (throws-as-`none`). -/
def jwtVerify (tok : Token) (secret : String) (nowSec : Nat) : Option JwtPayload :=
  match tok with
  | .malformed _ => none
  | .signed payload s =>
    if s = secret then
      match payload.expClaim with
      | some e => if e < nowSec then none else some payload
      | none => some payload
    else none

/-- Function `generateAccessToken` (jwt.ts): sub, username, iat = now, exp = now + 15 min. -/
def generateAccessToken (secret userId username : String) (nowMs : Nat) : Token :=
  let now := nowMs / 1000
  .signed (.access { sub := userId, username := username, iat := now,
                     exp := now + ACCESS_TOKEN_EXPIRES_IN }) secret

/-- Function `generateRefreshToken` (jwt.ts): sub, sessionId, iat = now, exp = now + 30 days. -/
def generateRefreshToken (secret userId sessionId : String) (nowMs : Nat) : Token :=
  let now := nowMs / 1000
  .signed (.refresh { sub := userId, sessionId := sessionId, iat := now,
                      exp := now + REFRESH_TOKEN_EXPIRES_IN }) secret

/-- Function `generateStateToken` (jwt.ts): payload is only `{timestamp: Date.now(),
random: crypto.randomUUID()}` — the nonce is an oracle parameter here. -/
def generateStateToken (secret : String) (nowMs : Nat) (random : String) : Token :=
  .signed (.state { timestamp := nowMs, random := random }) secret

/-- Function `verifyStateToken` (jwt.ts): signature check, then the application-level
age window `Date.now() - payload.timestamp > 10 min ⇒ null`.  (A negative JS
age and the truncated `Nat` subtraction both fail the `>` test, so `Nat`
subtraction is faithful.) -/
def verifyStateToken (secret : String) (tok : Token) (nowMs : Nat) :
    Option OAuthStatePayload :=
  match jwtVerify tok secret (nowMs / 1000) with
  | some (.state p) =>
    if nowMs - p.timestamp > STATE_TOKEN_EXPIRES_IN * 1000 then none else some p
  | _ => none

/-- Function `verifyAccessToken` (jwt.ts).  The TS source casts the verified payload
`as AccessTokenPayload` with no runtime kind check; the model reads the kind
off the payload shape and is only applied to access-kinded tokens. -/
def verifyAccessToken (secret : String) (tok : Token) (nowMs : Nat) :
    Option AccessTokenPayload :=
  match jwtVerify tok secret (nowMs / 1000) with
  | some (.access p) => some p
  | _ => none

/-- Function `verifyRefreshToken` (jwt.ts), same casting caveat as `verifyAccessToken`. -/
def verifyRefreshToken (secret : String) (tok : Token) (nowMs : Nat) :
    Option RefreshTokenPayload :=
  match jwtVerify tok secret (nowMs / 1000) with
  | some (.refresh p) => some p
  | _ => none

/-! ## Cookies (worker/auth/jwt.ts) -/

/-- One `Set-Cookie` header as built by the source (cookie name, value, the
`cookieOptions` object and the trailing `Max-Age`); `value := none` models the
empty serialized value `name=;` used when clearing. -/
structure SetCookie where
  name : String
  value : Option Token
  httpOnly : Bool
  secure : Bool
  sameSite : Option String
  path : String
  maxAge : Nat
  deriving DecidableEq, Repr

/-- Model of the JS `APP_URL.startsWith('https://')` test (jwt.ts):
character-by-character prefix comparison of the two strings. -/
def startsWithHttps (appUrl : String) : Bool :=
  "https://".data.isPrefixOf appUrl.data

/-- Function `setAuthCookies` (jwt.ts): both cookies httpOnly, Secure iff
`APP_URL.startsWith('https://')`, SameSite=Lax, Path=/, Max-Age = the token
kind's validity window, emitted access cookie first then refresh cookie. -/
def setAuthCookies (appUrl : String) (accessToken refreshToken : Token) :
    List SetCookie :=
  let isProduction := startsWithHttps appUrl
  [ { name := "access_token", value := some accessToken, httpOnly := true,
      secure := isProduction, sameSite := some "Lax", path := "/",
      maxAge := ACCESS_TOKEN_EXPIRES_IN },
    { name := "refresh_token", value := some refreshToken, httpOnly := true,
      secure := isProduction, sameSite := some "Lax", path := "/",
      maxAge := REFRESH_TOKEN_EXPIRES_IN } ]

/-- Function `clearAuthCookies` (jwt.ts): `access_token=; HttpOnly; Path=/; Max-Age=0`
and the same for `refresh_token` (no Secure, no SameSite attribute). -/
def clearAuthCookies : List SetCookie :=
  [ { name := "access_token", value := none, httpOnly := true,
      secure := false, sameSite := none, path := "/", maxAge := 0 },
    { name := "refresh_token", value := none, httpOnly := true,
      secure := false, sameSite := none, path := "/", maxAge := 0 } ]

/-! ## Authentication gate (worker/auth/middleware.ts) -/

/-- Outcome of `authMiddleware`: a 401 JSON error (no user attached to the
request context) or a pass-through with exactly the attached `User` row. -/
inductive GateResult where
  | unauthorized (error : String)
  | proceed (user : UserRow)
  deriving DecidableEq, Repr

/-- Function `authMiddleware` (middleware.ts): no `access_token` cookie ⇒ 401
"Unauthorized"; verification failure ⇒ 401 "Invalid or expired token"; no
`users` row for the token's `sub` ⇒ 401 "User not found"; otherwise attach
the row and continue.  (The JS falsy test `!accessToken` also catches an
empty cookie value; `none` models both absent and empty.) -/
def authMiddleware (secret : String) (db : DB) (cookie : Option Token) (nowMs : Nat) :
    GateResult :=
  match cookie with
  | none => .unauthorized "Unauthorized"
  | some accessToken =>
    match verifyAccessToken secret accessToken nowMs with
    | none => .unauthorized "Invalid or expired token"
    | some payload =>
      match db.users.find? (fun u => u.id == payload.sub) with
      | none => .unauthorized "User not found"
      | some user => .proceed user

/-! ## User directory (worker/auth/github.ts, createOrUpdateUser) -/

/-- The `users` row inserted on first login: the insert values of github.ts
plus the schema's `datetime('now')` defaults for createdAt/updatedAt. -/
def insertedUserRow (githubUser : GitHubUser) (newUserId : String) (nowMs : Nat) :
    UserRow :=
  { id := newUserId, username := githubUser.login, email := githubUser.email,
    avatarUrl := some githubUser.avatar_url, createdAt := nowMs, updatedAt := nowMs }

/-- The `github_identities` row inserted on first login. -/
def insertedIdentityRow (githubUser : GitHubUser) (newUserId : String) (nowMs : Nat) :
    GithubIdentityRow :=
  { userId := newUserId, githubId := githubUser.id, githubUsername := githubUser.login,
    githubEmail := githubUser.email, createdAt := nowMs }

/-- The mirrored-field update `db.update(users).set({username, email,
avatarUrl, updatedAt})` applied to the linked user row on a repeat login. -/
def mirrorProfileUpdate (githubUser : GitHubUser) (nowMs : Nat) (u : UserRow) : UserRow :=
  { u with username := githubUser.login, email := githubUser.email,
           avatarUrl := some githubUser.avatar_url, updatedAt := nowMs }

/-- Function `createOrUpdateUser` (github.ts): find the `github_identities` row by
`githubId`; on a hit, update the linked `users` row's mirrored fields
(username/email/avatarUrl, updatedAt = now) and return the existing id with
`isNewUser = false`; on a miss, insert a `users` row under a fresh
`crypto.randomUUID()` id (the `newUserId` oracle) and then a
`github_identities` row linked to it, returning `isNewUser = true`. -/
def createOrUpdateUser (db : DB) (githubUser : GitHubUser) (newUserId : String)
    (nowMs : Nat) : DB × String × Bool :=
  match db.identities.find? (fun i => i.githubId == githubUser.id) with
  | some existingIdentity =>
    let userId := existingIdentity.userId
    ({ db with users := db.users.map (fun u =>
        if u.id == userId then mirrorProfileUpdate githubUser nowMs u else u) },
     userId, false)
  | none =>
    ({ db with users := db.users ++ [insertedUserRow githubUser newUserId nowMs],
               identities := db.identities ++ [insertedIdentityRow githubUser newUserId nowMs] },
     newUserId, true)

/-- Variant of `createOrUpdateUser` with the store's real commit granularity made
explicit: the source runs the two inserts of the new-user branch as two
separate awaited statements with no surrounding transaction or batch, and D1
commits each statement on its own.  `secondInsertFails` injects a failure of
the `github_identities` insert; the thrown error (propagated to the caller)
carries the database state at that point, in which the `users` insert has
already committed. -/
def createOrUpdateUserNoTxn (db : DB) (githubUser : GitHubUser) (newUserId : String)
    (nowMs : Nat) (secondInsertFails : Bool) : Except DB (DB × String × Bool) :=
  match db.identities.find? (fun i => i.githubId == githubUser.id) with
  | some existingIdentity =>
    let userId := existingIdentity.userId
    .ok ({ db with users := db.users.map (fun u =>
        if u.id == userId then mirrorProfileUpdate githubUser nowMs u else u) },
      userId, false)
  | none =>
    let dbAfterUserInsert : DB :=
      { db with users := db.users ++ [insertedUserRow githubUser newUserId nowMs] }
    if secondInsertFails then
      .error dbAfterUserInsert
    else
      .ok ({ dbAfterUserInsert with
             identities := dbAfterUserInsert.identities
               ++ [insertedIdentityRow githubUser newUserId nowMs] },
        newUserId, true)

/-! ## Route handlers (worker/db.ts) -/

/-- Response of `POST /api/auth/refresh`: a 401 JSON error, or 200
`{success: true}` after `setAuthCookies(c, newAccessToken, refreshToken)` —
the success carries the freshly minted access token and the unchanged
refresh-token cookie value that the handler re-sets (no rotation). -/
inductive RefreshResult where
  | err (status : Nat) (error : String)
  | ok (newAccessToken : Token) (refreshCookie : Token)
  deriving DecidableEq, Repr

/-- Whether the refresh response is the 200 success. -/
def RefreshResult.isSuccess : RefreshResult → Bool
  | .ok _ _ => true
  | .err _ _ => false

/-- The `POST /api/auth/refresh` handler (db.ts): require and verify the
`refresh_token` cookie; find the session by the payload's `sessionId`
(missing ⇒ 401 "Session not found"); if `expiresAt < now`, delete the session
row and answer 401 "Session expired"; otherwise read the user's current
username (no row ⇒ 401 "User not found") and mint a new access token for
`session.userId` (the refresh cookie is re-sent unchanged). -/
def refreshHandler (secret : String) (db : DB) (cookie : Option Token) (nowMs : Nat) :
    RefreshResult × DB :=
  match cookie with
  | none => (.err 401 "No refresh token", db)
  | some refreshToken =>
    match verifyRefreshToken secret refreshToken nowMs with
    | none => (.err 401 "Invalid refresh token", db)
    | some payload =>
      match db.sessions.find? (fun s => s.id == payload.sessionId) with
      | none => (.err 401 "Session not found", db)
      | some session =>
        if session.expiresAt < nowMs then
          (.err 401 "Session expired",
            { db with sessions := db.sessions.filter (fun s => !(s.id == session.id)) })
        else
          match db.users.find? (fun u => u.id == session.userId) with
          | none => (.err 401 "User not found", db)
          | some user =>
            (.ok (generateAccessToken secret session.userId user.username nowMs)
               refreshToken, db)

/-- Response of `POST /api/auth/logout`: always 200 `{success: true}` with
both cookies cleared. -/
structure LogoutResult where
  success : Bool
  clearedCookies : List SetCookie
  deriving DecidableEq, Repr

/-- The `POST /api/auth/logout` handler (db.ts): when a `refresh_token`
cookie is present and verifies, delete the session row it names; then
unconditionally delete every session with `expiresAt` before now (the lazy
sweep compares ISO strings lexicographically, which agrees with `<` on the
numeric time line); clear both cookies and answer 200. -/
def logoutHandler (secret : String) (db : DB) (cookie : Option Token) (nowMs : Nat) :
    LogoutResult × DB :=
  let dbAfterTargeted :=
    match cookie with
    | none => db
    | some refreshToken =>
      match verifyRefreshToken secret refreshToken nowMs with
      | none => db
      | some payload =>
        { db with sessions := db.sessions.filter (fun s => !(s.id == payload.sessionId)) }
  let dbSwept := { dbAfterTargeted with
    sessions := dbAfterTargeted.sessions.filter (fun s => !decide (s.expiresAt < nowMs)) }
  ({ success := true, clearedCookies := clearAuthCookies }, dbSwept)

/-- Outcome of `handleGitHubCallback` (github.ts): an error redirect
`Response`, or the `{userId, githubUser, isNewUser}` record handed back to
the route. -/
inductive CallbackStep where
  | redirect (location : String)
  | ok (userId : String) (githubUser : GitHubUser) (isNewUser : Bool)
  deriving DecidableEq, Repr

/-- Function `handleGitHubCallback` (github.ts): require the `code` and `state` query
parameters (the falsy test also catches empty strings; `none` models both) ⇒
`/?error=missing_params`; verify the state token ⇒ `/?error=invalid_state`;
run the outbound GitHub exchange, whose outcome is the `exchange` oracle
(thrown errors ⇒ `/?error=auth_failed`); then `createOrUpdateUser`. -/
def handleGitHubCallback (secret : String) (db : DB) (code : Option String)
    (state : Option Token) (exchange : Except Unit GitHubUser) (newUserId : String)
    (nowMs : Nat) : CallbackStep × DB :=
  match code, state with
  | none, _ => (.redirect "/?error=missing_params", db)
  | some _, none => (.redirect "/?error=missing_params", db)
  | some _, some stateToken =>
    match verifyStateToken secret stateToken nowMs with
    | none => (.redirect "/?error=invalid_state", db)
    | some _ =>
      match exchange with
      | .error _ => (.redirect "/?error=auth_failed", db)
      | .ok githubUser =>
        let r := createOrUpdateUser db githubUser newUserId nowMs
        (.ok r.2.1 githubUser r.2.2, r.1)

/-- Response of `GET /api/auth/github/callback`: an error redirect, or the
redirect to `/` carrying the `Set-Cookie` headers and the minted tokens. -/
inductive CallbackResult where
  | redirect (location : String)
  | loggedIn (location : String) (cookies : List SetCookie)
      (accessToken refreshToken : Token) (userId : String)
  deriving DecidableEq, Repr

/-- The `GET /api/auth/github/callback` route (db.ts): on a successful
`handleGitHubCallback`, insert a session row with a fresh
`crypto.randomUUID()` id (the `sessionId` oracle) and expiry now + 30 days,
mint the access and refresh tokens, set both cookies and redirect to `/`. -/
def callbackRoute (secret appUrl : String) (db : DB) (code : Option String)
    (state : Option Token) (exchange : Except Unit GitHubUser)
    (newUserId sessionId : String) (nowMs : Nat) : CallbackResult × DB :=
  match handleGitHubCallback secret db code state exchange newUserId nowMs with
  | (.redirect location, db1) => (.redirect location, db1)
  | (.ok userId githubUser _, db1) =>
    let expiresAt := nowMs + 30 * 24 * 60 * 60 * 1000
    let db2 := { db1 with sessions := db1.sessions ++
        [{ id := sessionId, userId := userId, expiresAt := expiresAt, createdAt := nowMs }] }
    let accessToken := generateAccessToken secret userId githubUser.login nowMs
    let refreshToken := generateRefreshToken secret userId sessionId nowMs
    (.loggedIn "/" (setAuthCookies appUrl accessToken refreshToken)
       accessToken refreshToken userId, db2)

/-- The schema's foreign-key invariant (db/schema/sessions.ts: `user_id`
references `users.id`): every session row references an existing user row. -/
def DB.sessionsReferenceUsers (db : DB) : Prop :=
  ∀ s ∈ db.sessions, ∃ u ∈ db.users, u.id = s.userId

instance (db : DB) : Decidable db.sessionsReferenceUsers := by
  unfold DB.sessionsReferenceUsers
  infer_instance

/-! ## Concrete fixtures used by witnesses -/

/-- An empty database. -/
def dbEmpty : DB := { users := [], identities := [], sessions := [] }

/-- A concrete user row. -/
def aliceRow : UserRow :=
  { id := "u1", username := "alice", email := some "alice@example.com",
    avatarUrl := some "https://avatars.example/alice", createdAt := 0, updatedAt := 0 }

/-- A concrete session row for `aliceRow`, expiring at t = 1000000 ms. -/
def sessAlice : SessionRow :=
  { id := "sess1", userId := "u1", expiresAt := 1000000, createdAt := 0 }

/-- A database holding `aliceRow` and `sessAlice`. -/
def dbAlice : DB := { users := [aliceRow], identities := [], sessions := [sessAlice] }

/-- A concrete GitHub profile. -/
def ghAlice : GitHubUser :=
  { id := 42, login := "alice", email := some "alice@example.com",
    avatar_url := "https://avatars.example/alice", name := some "Alice" }

/-- A second, unrelated user row. -/
def bobRow : UserRow :=
  { id := "u2", username := "bob", email := none, avatarUrl := none,
    createdAt := 0, updatedAt := 0 }

/-- The identity row linking GitHub id 42 to `aliceRow`. -/
def idAlice : GithubIdentityRow :=
  { userId := "u1", githubId := 42, githubUsername := "alice",
    githubEmail := none, createdAt := 0 }

/-- A database where GitHub id 42 is already linked to `u1`. -/
def dbLinked : DB := { users := [aliceRow, bobRow], identities := [idAlice], sessions := [] }

/-- The GitHub profile of id 42 after a rename. -/
def ghAliceRenamed : GitHubUser :=
  { id := 42, login := "alice-renamed", email := none,
    avatar_url := "https://avatars.example/alice2", name := none }

/-- An already-expired session row. -/
def sessExpired : SessionRow :=
  { id := "old", userId := "u1", expiresAt := 10, createdAt := 0 }

/-- A live session row unrelated to `sessAlice`. -/
def sessOther : SessionRow :=
  { id := "other", userId := "u2", expiresAt := 1000000, createdAt := 0 }

/-- A database with a targeted live session, an expired one, and an
unrelated live one. -/
def dbSess : DB :=
  { users := [aliceRow, bobRow], identities := [],
    sessions := [sessAlice, sessExpired, sessOther] }

/-- A refresh token naming session "sess1", signed at t = 0 with secret "s". -/
def rtokSess1 : Token := generateRefreshToken "s" "u1" "sess1" 0

/-- A validly signed refresh token naming session "sess1" but carrying a
different subject. -/
def rtokMallory : Token :=
  .signed (.refresh { sub := "mallory", sessionId := "sess1", exp := 2592000, iat := 0 }) "s"

/-! ## Claim theorems -/

/-- C3, counterexample: the OAuth-state token minted at time 0 with nonce
"r" is signed, but its signed payload carries neither an expires-at nor an
issued-at JWT claim — `OAuthStatePayload` has only the `timestamp` and
`random` fields, so the claim that the sign operation embeds an expires-at
claim for every token kind (state = issue time + 10 minutes) is false for
the state kind. -/
theorem state_token_payload_has_no_expiry_claim :
    ((generateStateToken "secret" 0 "r").signedPayload.bind JwtPayload.expClaim = none)
    ∧ ((generateStateToken "secret" 0 "r").signedPayload.bind JwtPayload.iatClaim = none)
    ∧ ((generateStateToken "secret" 0 "r").signedPayload
        = some (.state { timestamp := 0, random := "r" })) :=
  ⟨rfl, rfl, rfl⟩

/-- C3, amended: the access and refresh sign operations embed an issued-at
and an expires-at claim in the signed payload (access expiry = issue time +
15 minutes, refresh = + 30 days); the OAuth-state sign operation embeds only
an issue-time timestamp (milliseconds) and a random nonce, with no
expires-at claim — the 10-minute state window is enforced at verification
time instead. -/
theorem sign_embeds_claims_per_kind (secret userId username sessionId nonce : String)
    (nowMs : Nat) :
    ((generateAccessToken secret userId username nowMs).signedPayload.bind
        JwtPayload.iatClaim = some (nowMs / 1000))
    ∧ ((generateAccessToken secret userId username nowMs).signedPayload.bind
        JwtPayload.expClaim = some (nowMs / 1000 + 15 * 60))
    ∧ ((generateRefreshToken secret userId sessionId nowMs).signedPayload.bind
        JwtPayload.iatClaim = some (nowMs / 1000))
    ∧ ((generateRefreshToken secret userId sessionId nowMs).signedPayload.bind
        JwtPayload.expClaim = some (nowMs / 1000 + 30 * 24 * 60 * 60))
    ∧ ((generateStateToken secret nowMs nonce).signedPayload
        = some (.state { timestamp := nowMs, random := nonce }))
    ∧ ((generateStateToken secret nowMs nonce).signedPayload.bind
        JwtPayload.expClaim = none) :=
  ⟨rfl, rfl, rfl, rfl, rfl, rfl⟩

/-- C3 (amended) witness: at t = 5000 ms the access token carries iat 5 and
exp 905, and the refresh token carries exp 2592005. -/
theorem sign_embeds_claims_per_kind_witness :
    ((generateAccessToken "s" "u" "alice" 5000).signedPayload.bind JwtPayload.iatClaim
        = some 5)
    ∧ ((generateAccessToken "s" "u" "alice" 5000).signedPayload.bind JwtPayload.expClaim
        = some 905)
    ∧ ((generateRefreshToken "s" "u" "sid" 5000).signedPayload.bind JwtPayload.expClaim
        = some 2592005)
    ∧ ((generateStateToken "s" 5000 "r").signedPayload.bind JwtPayload.expClaim = none) := by
  have h := sign_embeds_claims_per_kind "s" "u" "alice" "sid" "r" 5000
  exact ⟨h.1, h.2.1, h.2.2.2.1, h.2.2.2.2.2⟩

/-- C8: `setAuthCookies` emits the `access_token` and the `refresh_token`
`Set-Cookie` headers, each httpOnly, SameSite=Lax, path `/`, Secure exactly
when the configured application URL starts with `https://`, with max-age 15
minutes for the access cookie and 30 days for the refresh cookie; and
`clearAuthCookies` (run by logout) clears both cookie names via max-age 0. -/
theorem set_and_clear_auth_cookie_attributes (appUrl : String)
    (accessToken refreshToken : Token) :
    (setAuthCookies appUrl accessToken refreshToken
      = [ { name := "access_token", value := some accessToken, httpOnly := true,
            secure := startsWithHttps appUrl, sameSite := some "Lax",
            path := "/", maxAge := 15 * 60 },
          { name := "refresh_token", value := some refreshToken, httpOnly := true,
            secure := startsWithHttps appUrl, sameSite := some "Lax",
            path := "/", maxAge := 30 * 24 * 60 * 60 } ])
    ∧ (clearAuthCookies
      = [ { name := "access_token", value := none, httpOnly := true, secure := false,
            sameSite := none, path := "/", maxAge := 0 },
          { name := "refresh_token", value := none, httpOnly := true, secure := false,
            sameSite := none, path := "/", maxAge := 0 } ]) :=
  ⟨rfl, rfl⟩

/-- C8 witness: under the https application URL both cookies come out
Secure with their max-ages, and the clearing cookies carry max-age 0. -/
theorem set_and_clear_auth_cookie_attributes_witness :
    (setAuthCookies "https://app.example" rtokSess1 rtokMallory
      = [ { name := "access_token", value := some rtokSess1, httpOnly := true,
            secure := true, sameSite := some "Lax", path := "/", maxAge := 15 * 60 },
          { name := "refresh_token", value := some rtokMallory, httpOnly := true,
            secure := true, sameSite := some "Lax", path := "/",
            maxAge := 30 * 24 * 60 * 60 } ])
    ∧ (clearAuthCookies
      = [ { name := "access_token", value := none, httpOnly := true, secure := false,
            sameSite := none, path := "/", maxAge := 0 },
          { name := "refresh_token", value := none, httpOnly := true, secure := false,
            sameSite := none, path := "/", maxAge := 0 } ]) := by
  have h := set_and_clear_auth_cookie_attributes "https://app.example" rtokSess1 rtokMallory
  have hss : startsWithHttps "https://app.example" = true := by decide
  rw [hss] at h
  exact h

/-- C2, failing execution: on first login for brand-new GitHub id 42, when
the `github_identities` insert fails after the `users` insert has committed
(the source runs the two inserts as separate awaited statements with no
transaction or batch around them), the error propagated to the caller leaves
the store holding the new `users` row and no `github_identities` row — the
creation is not atomic.  The second conjunct checks the fault-free run of the
same model agrees with `createOrUpdateUser`. -/
theorem first_login_failure_leaves_dangling_user :
    (createOrUpdateUserNoTxn dbEmpty ghAlice "new-user-id" 1000 true
      = .error { users := [{ id := "new-user-id", username := "alice",
                             email := some "alice@example.com",
                             avatarUrl := some "https://avatars.example/alice",
                             createdAt := 1000, updatedAt := 1000 }],
                 identities := [], sessions := [] })
    ∧ (∀ (db : DB) (gh : GitHubUser) (newUserId : String) (nowMs : Nat),
        createOrUpdateUserNoTxn db gh newUserId nowMs false
          = .ok (createOrUpdateUser db gh newUserId nowMs)) := by
  constructor
  · rfl
  · intro db gh newUserId nowMs
    unfold createOrUpdateUserNoTxn createOrUpdateUser
    cases h : db.identities.find? (fun i => i.githubId == gh.id) <;> simp

/-- C6: an OAuth-state token whose embedded timestamp is more than 10
minutes older than the current time is rejected by `verifyStateToken` even
though its signature verifies, and a callback presented with such a state
token redirects to `/?error=invalid_state`. -/
theorem stale_state_token_rejected (secret nonce : String) (issuedMs nowMs : Nat)
    (hAge : nowMs - issuedMs > STATE_TOKEN_EXPIRES_IN * 1000)
    (db : DB) (code : String) (exchange : Except Unit GitHubUser) (newUserId : String) :
    (jwtVerify (generateStateToken secret issuedMs nonce) secret (nowMs / 1000)
        = some (.state { timestamp := issuedMs, random := nonce }))
    ∧ (verifyStateToken secret (generateStateToken secret issuedMs nonce) nowMs = none)
    ∧ (handleGitHubCallback secret db (some code)
        (some (generateStateToken secret issuedMs nonce)) exchange newUserId nowMs
        = (.redirect "/?error=invalid_state", db)) := by
  have h1 : jwtVerify (generateStateToken secret issuedMs nonce) secret (nowMs / 1000)
      = some (.state { timestamp := issuedMs, random := nonce }) := by
    simp [jwtVerify, generateStateToken, JwtPayload.expClaim]
  have h2 : verifyStateToken secret (generateStateToken secret issuedMs nonce) nowMs
      = none := by
    unfold verifyStateToken
    rw [h1]
    simp [hAge]
  refine ⟨h1, h2, ?_⟩
  simp [handleGitHubCallback, h2]

/-- C6 witness: the state token issued at T = 0 presented at T = 11 minutes
(660000 ms) is rejected and the callback redirects to `/?error=invalid_state`. -/
theorem stale_state_token_rejected_witness :
    (verifyStateToken "s" (generateStateToken "s" 0 "r") 660000 = none)
    ∧ (handleGitHubCallback "s" dbEmpty (some "code")
        (some (generateStateToken "s" 0 "r")) (Except.ok ghAlice) "nu" 660000
        = (.redirect "/?error=invalid_state", dbEmpty)) := by
  have h := stale_state_token_rejected "s" "r" 0 660000 (by decide) dbEmpty "code"
    (Except.ok ghAlice) "nu"
  exact ⟨h.2.1, h.2.2⟩

/-- C4: for any request to a gate-protected operation — with no access-token
cookie the gate answers 401 "Unauthorized" and attaches no user; with a
cookie holding a tampered token (not produced by `sign`, or signed under a
different secret) or an expired token it answers 401 and attaches no user;
with a valid unexpired token whose subject matches no user row it answers
401 "User not found"; and with a matching user row it attaches exactly that
row and lets the request through. -/
theorem auth_gate_cases (secret : String) (db : DB) (nowMs : Nat) :
    (authMiddleware secret db none nowMs = .unauthorized "Unauthorized")
    ∧ (∀ raw, authMiddleware secret db (some (.malformed raw)) nowMs
        = .unauthorized "Invalid or expired token")
    ∧ (∀ (p : AccessTokenPayload) (badSecret : String), ¬ badSecret = secret →
        authMiddleware secret db (some (.signed (.access p) badSecret)) nowMs
          = .unauthorized "Invalid or expired token")
    ∧ (∀ p : AccessTokenPayload, p.exp < nowMs / 1000 →
        authMiddleware secret db (some (.signed (.access p) secret)) nowMs
          = .unauthorized "Invalid or expired token")
    ∧ (∀ p : AccessTokenPayload, ¬ p.exp < nowMs / 1000 →
        db.users.find? (fun u => u.id == p.sub) = none →
        authMiddleware secret db (some (.signed (.access p) secret)) nowMs
          = .unauthorized "User not found")
    ∧ (∀ (p : AccessTokenPayload) (user : UserRow), ¬ p.exp < nowMs / 1000 →
        db.users.find? (fun u => u.id == p.sub) = some user →
        authMiddleware secret db (some (.signed (.access p) secret)) nowMs
          = .proceed user) := by
  refine ⟨rfl, fun raw => rfl, ?_, ?_, ?_, ?_⟩
  · intro p badSecret hbs
    simp [authMiddleware, verifyAccessToken, jwtVerify, hbs]
  · intro p hexp
    simp [authMiddleware, verifyAccessToken, jwtVerify, JwtPayload.expClaim, hexp]
  · intro p hexp hfind
    simp [authMiddleware, verifyAccessToken, jwtVerify, JwtPayload.expClaim, hexp, hfind]
  · intro p user hexp hfind
    simp [authMiddleware, verifyAccessToken, jwtVerify, JwtPayload.expClaim, hexp, hfind]

/-- C4 witness: concrete gate calls — no cookie 401 "Unauthorized"; a valid
token for `u1` at t = 500 s attaches `aliceRow`; the same token expired at
t = 1000 s is 401; a valid token for an unknown subject is 401 "User not
found"; the token signed under another secret is 401. -/
theorem auth_gate_cases_witness :
    (authMiddleware "s" dbAlice none 0 = .unauthorized "Unauthorized")
    ∧ (authMiddleware "s" dbAlice
        (some (.signed (.access { sub := "u1", username := "alice", exp := 900, iat := 0 }) "s"))
        500000 = .proceed aliceRow)
    ∧ (authMiddleware "s" dbAlice
        (some (.signed (.access { sub := "u1", username := "alice", exp := 900, iat := 0 }) "s"))
        1000000 = .unauthorized "Invalid or expired token")
    ∧ (authMiddleware "s" dbAlice
        (some (.signed (.access { sub := "ghost", username := "g", exp := 900, iat := 0 }) "s"))
        500000 = .unauthorized "User not found")
    ∧ (authMiddleware "s" dbAlice
        (some (.signed (.access { sub := "u1", username := "alice", exp := 900, iat := 0 }) "x"))
        500000 = .unauthorized "Invalid or expired token") := by
  refine ⟨(auth_gate_cases "s" dbAlice 0).1, ?_, ?_, ?_, ?_⟩
  · exact (auth_gate_cases "s" dbAlice 500000).2.2.2.2.2 _ aliceRow (by decide) (by decide)
  · exact (auth_gate_cases "s" dbAlice 1000000).2.2.2.1 _ (by decide)
  · exact (auth_gate_cases "s" dbAlice 500000).2.2.2.2.1 _ (by decide) (by decide)
  · exact (auth_gate_cases "s" dbAlice 500000).2.2.1 _ "x" (by decide)

/-- C10: on a repeat login for an existing provider id, the whole
`github_identities` relation is left unchanged — in particular the matched
row's `githubUsername` and `githubEmail` are not refreshed from the new
profile — the sessions are untouched, the operation reports the existing
linked user id with `isNewUser = false`, and every user row other than the
linked one is unchanged (only the linked `users` row is updated). -/
theorem repeat_login_identity_row_unchanged (db : DB) (gh : GitHubUser)
    (newUserId : String) (nowMs : Nat) (identityRow : GithubIdentityRow)
    (hfound : db.identities.find? (fun i => i.githubId == gh.id) = some identityRow) :
    ((createOrUpdateUser db gh newUserId nowMs).1.identities = db.identities)
    ∧ ((createOrUpdateUser db gh newUserId nowMs).1.sessions = db.sessions)
    ∧ ((createOrUpdateUser db gh newUserId nowMs).2 = (identityRow.userId, false))
    ∧ (∀ u ∈ db.users, ¬ u.id = identityRow.userId →
        u ∈ (createOrUpdateUser db gh newUserId nowMs).1.users)
    ∧ ((createOrUpdateUser db gh newUserId nowMs).1.users.length = db.users.length) := by
  unfold createOrUpdateUser
  rw [hfound]
  refine ⟨rfl, rfl, rfl, ?_, by simp⟩
  intro u hu hne
  refine List.mem_map.mpr ⟨u, hu, ?_⟩
  simp [hne]

/-- C10 witness: a repeat login for GitHub id 42 under a renamed profile
leaves the identity row (still carrying the original `githubUsername`)
unchanged, returns the linked user id `u1` with `isNewUser = false`, and
keeps the unrelated user `bobRow`. -/
theorem repeat_login_identity_row_unchanged_witness :
    ((createOrUpdateUser dbLinked ghAliceRenamed "unused-id" 99).1.identities
        = dbLinked.identities)
    ∧ ((createOrUpdateUser dbLinked ghAliceRenamed "unused-id" 99).2 = ("u1", false))
    ∧ (bobRow ∈ (createOrUpdateUser dbLinked ghAliceRenamed "unused-id" 99).1.users) := by
  have h := repeat_login_identity_row_unchanged dbLinked ghAliceRenamed "unused-id" 99
    idAlice (by decide)
  exact ⟨h.1, h.2.2.1, h.2.2.2.1 bobRow (by decide) (by decide)⟩

/-- C5: every logout call answers 200 `{success: true}` and clears both auth
cookies, whatever cookie (valid, invalid or absent) was presented; it leaves
users and identities untouched; and a session row survives exactly when it
was there before, its expiry has not passed, and it is not the session named
by a verifying refresh-token cookie — so the handler deletes exactly the
presented (valid) token's session plus every already-expired session. -/
theorem logout_always_succeeds_and_sweeps (secret : String) (db : DB)
    (cookie : Option Token) (nowMs : Nat) :
    ((logoutHandler secret db cookie nowMs).1.success = true)
    ∧ ((logoutHandler secret db cookie nowMs).1.clearedCookies = clearAuthCookies)
    ∧ ((logoutHandler secret db cookie nowMs).2.users = db.users)
    ∧ ((logoutHandler secret db cookie nowMs).2.identities = db.identities)
    ∧ (∀ s : SessionRow, s ∈ (logoutHandler secret db cookie nowMs).2.sessions ↔
        (s ∈ db.sessions ∧ ¬ s.expiresAt < nowMs ∧
          ∀ p : RefreshTokenPayload,
            (cookie.bind fun t => verifyRefreshToken secret t nowMs) = some p →
            ¬ s.id = p.sessionId)) := by
  cases cookie with
  | none =>
    refine ⟨rfl, rfl, rfl, rfl, fun s => ?_⟩
    simp [logoutHandler, List.mem_filter, and_assoc]
  | some tok =>
    cases hv : verifyRefreshToken secret tok nowMs with
    | none =>
      refine ⟨?_, ?_, ?_, ?_, fun s => ?_⟩ <;>
        simp [logoutHandler, hv, List.mem_filter, and_assoc]
    | some p =>
      refine ⟨?_, ?_, ?_, ?_, fun s => ?_⟩ <;>
        simp [logoutHandler, hv, List.mem_filter, and_assoc]

/-- C5 witness: logging out of `dbSess` with the valid refresh token for
"sess1" at t = 500 ms answers success, keeps the unrelated live session,
and removes both the targeted session and the already-expired one. -/
theorem logout_always_succeeds_and_sweeps_witness :
    ((logoutHandler "s" dbSess (some rtokSess1) 500).1.success = true)
    ∧ (sessOther ∈ (logoutHandler "s" dbSess (some rtokSess1) 500).2.sessions)
    ∧ (sessAlice ∉ (logoutHandler "s" dbSess (some rtokSess1) 500).2.sessions)
    ∧ (sessExpired ∉ (logoutHandler "s" dbSess (some rtokSess1) 500).2.sessions) := by
  have h := logout_always_succeeds_and_sweeps "s" dbSess (some rtokSess1) 500
  have heval : ((some rtokSess1).bind fun t => verifyRefreshToken "s" t 500)
      = some { sub := "u1", sessionId := "sess1", exp := 2592000, iat := 0 } := by decide
  refine ⟨h.1, ?_, ?_, ?_⟩
  · refine (h.2.2.2.2 sessOther).mpr ⟨by decide, by decide, fun p hp => ?_⟩
    rw [heval] at hp
    injection hp with hp2
    rw [← hp2]
    decide
  · intro hmem
    obtain ⟨-, -, hforall⟩ := (h.2.2.2.2 sessAlice).mp hmem
    exact hforall _ heval rfl
  · intro hmem
    obtain ⟨-, hlive, -⟩ := (h.2.2.2.2 sessExpired).mp hmem
    exact hlive (by decide)

/-- Helper: mapping an id-preserving rewrite over a user list commutes with
`find?` by id. -/
theorem find?_id_of_map_id_preserving (l : List UserRow) (g : UserRow → UserRow)
    (hid : ∀ u, (g u).id = u.id) (uid : String) :
    (l.map g).find? (fun u => u.id == uid) = (l.find? (fun u => u.id == uid)).map g := by
  rw [List.find?_map]
  have hcomp : ((fun u : UserRow => u.id == uid) ∘ g) = fun u : UserRow => u.id == uid := by
    funext u
    simp [Function.comp, hid]
  rw [hcomp]

/-- C7: a first login for a brand-new provider id appends exactly one user
row and one identity row, linked by `newUserId`, and reports
`isNewUser = true` (with exactly one users row carrying the fresh id and
exactly one identity row carrying the provider id); a second login for the
same provider id creates no new user row, returns the existing user id with
`isNewUser = false`, leaves the identities untouched, and updates the stored
user's username, email, avatarUrl and updatedAt from the new profile. -/
theorem first_login_creates_second_login_updates (db : DB) (gh gh2 : GitHubUser)
    (newUserId newUserId2 : String) (nowMs now2 : Nat)
    (hNoIdentity : db.identities.find? (fun i => i.githubId == gh.id) = none)
    (hFreshId : ∀ u ∈ db.users, ¬ u.id = newUserId)
    (hSameGh : gh2.id = gh.id) :
    ((createOrUpdateUser db gh newUserId nowMs).2 = (newUserId, true))
    ∧ ((createOrUpdateUser db gh newUserId nowMs).1.users
        = db.users ++ [insertedUserRow gh newUserId nowMs])
    ∧ ((createOrUpdateUser db gh newUserId nowMs).1.identities
        = db.identities ++ [insertedIdentityRow gh newUserId nowMs])
    ∧ ((createOrUpdateUser db gh newUserId nowMs).1.users.countP
        (fun u => u.id == newUserId) = 1)
    ∧ ((createOrUpdateUser db gh newUserId nowMs).1.identities.countP
        (fun i => i.githubId == gh.id) = 1)
    ∧ ((createOrUpdateUser (createOrUpdateUser db gh newUserId nowMs).1
          gh2 newUserId2 now2).2 = (newUserId, false))
    ∧ ((createOrUpdateUser (createOrUpdateUser db gh newUserId nowMs).1
          gh2 newUserId2 now2).1.users.length
        = (createOrUpdateUser db gh newUserId nowMs).1.users.length)
    ∧ ((createOrUpdateUser (createOrUpdateUser db gh newUserId nowMs).1
          gh2 newUserId2 now2).1.users.find? (fun u => u.id == newUserId)
        = some (mirrorProfileUpdate gh2 now2 (insertedUserRow gh newUserId nowMs)))
    ∧ ((createOrUpdateUser (createOrUpdateUser db gh newUserId nowMs).1
          gh2 newUserId2 now2).1.identities
        = (createOrUpdateUser db gh newUserId nowMs).1.identities) := by
  have hstep1 : createOrUpdateUser db gh newUserId nowMs
      = ({ db with users := db.users ++ [insertedUserRow gh newUserId nowMs],
                   identities := db.identities ++ [insertedIdentityRow gh newUserId nowMs] },
         newUserId, true) := by
    unfold createOrUpdateUser
    rw [hNoIdentity]
  have hfindU : db.users.find? (fun u => u.id == newUserId) = none :=
    List.find?_eq_none.mpr (fun u hu => by simpa using hFreshId u hu)
  have hfound2 : (db.identities ++ [insertedIdentityRow gh newUserId nowMs]).find?
      (fun i => i.githubId == gh2.id) = some (insertedIdentityRow gh newUserId nowMs) := by
    rw [List.find?_append]
    have h0 : db.identities.find? (fun i => i.githubId == gh2.id) = none := by
      rw [hSameGh]
      exact hNoIdentity
    rw [h0]
    simp [insertedIdentityRow, hSameGh]
  have hstep2 : createOrUpdateUser
      ({ db with users := db.users ++ [insertedUserRow gh newUserId nowMs],
                 identities := db.identities ++ [insertedIdentityRow gh newUserId nowMs] })
      gh2 newUserId2 now2
      = ({ db with
            users := (db.users ++ [insertedUserRow gh newUserId nowMs]).map (fun u =>
              if u.id == newUserId then mirrorProfileUpdate gh2 now2 u else u),
            identities := db.identities ++ [insertedIdentityRow gh newUserId nowMs] },
         newUserId, false) := by
    unfold createOrUpdateUser
    simp only [hfound2]
    rfl
  refine ⟨?_, ?_, ?_, ?_, ?_, ?_, ?_, ?_, ?_⟩
  · rw [hstep1]
  · rw [hstep1]
  · rw [hstep1]
  · rw [hstep1]
    have h0 : db.users.countP (fun u => u.id == newUserId) = 0 :=
      List.countP_eq_zero.mpr (fun u hu => by simpa using hFreshId u hu)
    simp [List.countP_append, h0, insertedUserRow, List.countP_cons]
  · rw [hstep1]
    have h0 : db.identities.countP (fun i => i.githubId == gh.id) = 0 :=
      List.countP_eq_zero.mpr (fun i hi => by
        simpa using List.find?_eq_none.mp hNoIdentity i hi)
    simp [List.countP_append, h0, insertedIdentityRow, List.countP_cons]
  · simp only [hstep1, hstep2]
  · simp only [hstep1, hstep2, List.length_map]
  · simp only [hstep1, hstep2]
    rw [find?_id_of_map_id_preserving _ _ (fun u => by
      by_cases h : u.id = newUserId <;> simp [mirrorProfileUpdate, h])]
    rw [List.find?_append, hfindU]
    simp [insertedUserRow]
  · simp only [hstep1, hstep2]

/-- C7 witness: a first login for GitHub id 42 on an empty store creates the
linked user and identity rows with `isNewUser = true`; a second login with
the renamed profile returns the same user id with `isNewUser = false` and
the stored user row carries the new username, email, avatar and update
time. -/
theorem first_login_creates_second_login_updates_witness :
    ((createOrUpdateUser dbEmpty ghAlice "nu" 7).2 = ("nu", true))
    ∧ ((createOrUpdateUser dbEmpty ghAlice "nu" 7).1.users.countP
        (fun u => u.id == "nu") = 1)
    ∧ ((createOrUpdateUser dbEmpty ghAlice "nu" 7).1.identities.countP
        (fun i => i.githubId == 42) = 1)
    ∧ ((createOrUpdateUser (createOrUpdateUser dbEmpty ghAlice "nu" 7).1
          ghAliceRenamed "nu2" 9).2 = ("nu", false))
    ∧ ((createOrUpdateUser (createOrUpdateUser dbEmpty ghAlice "nu" 7).1
          ghAliceRenamed "nu2" 9).1.users.find? (fun u => u.id == "nu")
        = some { id := "nu", username := "alice-renamed", email := none,
                 avatarUrl := some "https://avatars.example/alice2",
                 createdAt := 7, updatedAt := 9 }) := by
  have h := first_login_creates_second_login_updates dbEmpty ghAlice ghAliceRenamed
    "nu" "nu2" 7 9 (by decide) (by decide) (by decide)
  exact ⟨h.1, h.2.2.2.1, h.2.2.2.2.1, h.2.2.2.2.2.1, h.2.2.2.2.2.2.2.1⟩

/-- C1: for a refresh call whose refresh-token cookie verifies, under the
schema's foreign-key invariant: the handler answers 200 success exactly when
the session row named by the token's embedded session id exists and its
expiry has not passed; on success the newly minted access token verifies and
carries the session's user id and the stored user's username as subject and
username — the same pair as any access token minted at login for that user
while the stored username is unchanged; and when the session exists but is
expired, the handler deletes that session row and answers 401
"Session expired". -/
theorem refresh_success_iff_live_session (secret : String) (db : DB) (tok : Token)
    (payload : RefreshTokenPayload) (nowMs : Nat)
    (hVerify : verifyRefreshToken secret tok nowMs = some payload)
    (hFK : db.sessionsReferenceUsers) :
    ((refreshHandler secret db (some tok) nowMs).1.isSuccess = true ↔
      ∃ session, db.sessions.find? (fun s => s.id == payload.sessionId) = some session
        ∧ ¬ session.expiresAt < nowMs)
    ∧ (∀ session user,
        db.sessions.find? (fun s => s.id == payload.sessionId) = some session →
        ¬ session.expiresAt < nowMs →
        db.users.find? (fun u => u.id == session.userId) = some user →
        (refreshHandler secret db (some tok) nowMs
          = (.ok (generateAccessToken secret session.userId user.username nowMs) tok, db))
        ∧ (verifyAccessToken secret
              (generateAccessToken secret session.userId user.username nowMs) nowMs
            = some { sub := session.userId, username := user.username,
                     exp := nowMs / 1000 + 15 * 60, iat := nowMs / 1000 })
        ∧ (∀ loginMs : Nat,
            (generateAccessToken secret session.userId user.username nowMs).accessPayload.map
              (fun p => (p.sub, p.username))
            = (generateAccessToken secret session.userId user.username loginMs).accessPayload.map
              (fun p => (p.sub, p.username))))
    ∧ (∀ session,
        db.sessions.find? (fun s => s.id == payload.sessionId) = some session →
        session.expiresAt < nowMs →
        refreshHandler secret db (some tok) nowMs
          = (.err 401 "Session expired",
             { db with sessions := db.sessions.filter (fun s => !(s.id == session.id)) })) := by
  refine ⟨?_, ?_, ?_⟩
  · cases hfind : db.sessions.find? (fun s => s.id == payload.sessionId) with
    | none => simp [refreshHandler, hVerify, hfind, RefreshResult.isSuccess]
    | some session =>
      by_cases hexp : session.expiresAt < nowMs
      · simp [refreshHandler, hVerify, hfind, hexp, RefreshResult.isSuccess]
      · have hmem := List.mem_of_find?_eq_some hfind
        obtain ⟨u, hu, huid⟩ := hFK session hmem
        have hsome : (db.users.find? (fun x => x.id == session.userId)).isSome := by
          rw [List.find?_isSome]
          exact ⟨u, hu, by simpa using huid⟩
        obtain ⟨user, huser⟩ := Option.isSome_iff_exists.mp hsome
        simp [refreshHandler, hVerify, hfind, hexp, huser, RefreshResult.isSuccess]
        omega
  · intro session user hfind hexp huser
    have hnotlt : ¬ (nowMs / 1000 + 15 * 60 < nowMs / 1000) := by omega
    refine ⟨?_, ?_, ?_⟩
    · simp [refreshHandler, hVerify, hfind, hexp, huser]
    · simp [verifyAccessToken, jwtVerify, generateAccessToken, JwtPayload.expClaim,
        ACCESS_TOKEN_EXPIRES_IN, hnotlt]
    · intro loginMs
      simp [generateAccessToken, Token.accessPayload]
  · intro session hfind hexp
    simp [refreshHandler, hVerify, hfind, hexp]

/-- C1 witness: in `dbAlice`, refreshing at t = 500 ms with the valid token
for the live session "sess1" succeeds and mints the access token for user
`u1` / username "alice". -/
theorem refresh_success_iff_live_session_witness :
    ((refreshHandler "s" dbAlice (some rtokSess1) 500).1.isSuccess = true)
    ∧ (refreshHandler "s" dbAlice (some rtokSess1) 500
        = (.ok (generateAccessToken "s" "u1" "alice" 500) rtokSess1, dbAlice)) := by
  have h := refresh_success_iff_live_session "s" dbAlice rtokSess1
    { sub := "u1", sessionId := "sess1", exp := 2592000, iat := 0 } 500
    (by decide) (by decide)
  exact ⟨h.1.mpr ⟨sessAlice, by decide, by decide⟩,
    (h.2.1 sessAlice aliceRow (by decide) (by decide) (by decide)).1⟩

/-- C9: on a successful refresh, the minted access token takes its subject
from the stored session row's `userId` and its username from the current
user row — not from the refresh token's own `sub` claim: even when the
refresh token's `sub` differs from the session's `userId` (the handler never
compares them), the issued token carries the session's `userId`. -/
theorem refresh_mints_for_session_user (secret : String) (db : DB) (tok : Token)
    (payload : RefreshTokenPayload) (session : SessionRow) (user : UserRow) (nowMs : Nat)
    (hVerify : verifyRefreshToken secret tok nowMs = some payload)
    (hSession : db.sessions.find? (fun s => s.id == payload.sessionId) = some session)
    (hLive : ¬ session.expiresAt < nowMs)
    (hUser : db.users.find? (fun u => u.id == session.userId) = some user)
    (hMismatch : ¬ payload.sub = session.userId) :
    (refreshHandler secret db (some tok) nowMs
      = (.ok (generateAccessToken secret session.userId user.username nowMs) tok, db))
    ∧ ((generateAccessToken secret session.userId user.username nowMs).accessPayload
      = some { sub := session.userId, username := user.username,
               exp := nowMs / 1000 + 15 * 60, iat := nowMs / 1000 })
    ∧ (∀ p, (generateAccessToken secret session.userId user.username nowMs).accessPayload
          = some p → ¬ p.sub = payload.sub) := by
  have haccess : (generateAccessToken secret session.userId user.username nowMs).accessPayload
      = some { sub := session.userId, username := user.username,
               exp := nowMs / 1000 + 15 * 60, iat := nowMs / 1000 } := by
    simp [generateAccessToken, Token.accessPayload, ACCESS_TOKEN_EXPIRES_IN]
  refine ⟨?_, haccess, ?_⟩
  · simp [refreshHandler, hVerify, hSession, hLive, hUser]
  · intro p hp
    rw [haccess] at hp
    injection hp with hpeq
    intro hcontra
    have hsub : p.sub = session.userId := by
      rw [← hpeq]
    exact hMismatch (hcontra.symm.trans hsub)

/-- C9 witness: a refresh token whose `sub` is "mallory" but which names
session "sess1" (owned by `u1`) still yields an access token for `u1`. -/
theorem refresh_mints_for_session_user_witness :
    (refreshHandler "s" dbAlice (some rtokMallory) 500
      = (.ok (generateAccessToken "s" "u1" "alice" 500) rtokMallory, dbAlice))
    ∧ ((generateAccessToken "s" "u1" "alice" 500).accessPayload
      = some { sub := "u1", username := "alice", exp := 900, iat := 0 }) := by
  have h := refresh_mints_for_session_user "s" dbAlice rtokMallory
    { sub := "mallory", sessionId := "sess1", exp := 2592000, iat := 0 }
    sessAlice aliceRow 500 (by decide) (by decide) (by decide) (by decide) (by decide)
  exact ⟨h.1, h.2.1⟩

end Codiro
